import Mathlib

/-!
# KumaFront — verification of the listing/filter view and the term form

Shallow embedding of the client-side logic of the KumaFront glossary
front-end:

* `src/components/Terms/HomePage.tsx` — filtering of the approved-term
  list by category / theme / language / search text, deselect-toggle
  semantics of the filter buttons, and client-side pagination;
* `src/components/Terms/TermForm.tsx` — the term submission form: input
  capitalization (`capitalizeWord`), the "Other + free text" escape
  hatch, default dropdown selections after the data fetch, and the
  payload built by `handleSubmit`.

Strings are modelled by Lean `String`; the JavaScript `toLowerCase` /
`toUpperCase` calls are modelled on the ASCII fragment by
`Char.toLower` / `Char.toUpper` mapped over the characters, and
`String.prototype.includes` by an explicit substring scan over the
character list.
-/

/-- Character-list version of `String.prototype.startsWith`:
`listStartsWith pat l` is true when `pat` is a prefix of `l`. -/
def listStartsWith : List Char → List Char → Bool
  | [], _ => true
  | _ :: _, [] => false
  | a :: as, b :: bs => a == b && listStartsWith as bs

/-- Character-list version of `String.prototype.includes`:
`charsIncludes hay pat` is true when `pat` occurs contiguously in `hay`. -/
def charsIncludes : List Char → List Char → Bool
  | [], pat => pat.isEmpty
  | h :: t, pat => listStartsWith pat (h :: t) || charsIncludes t pat

/-- Embedding of JavaScript `String.prototype.toLowerCase` (ASCII fragment):
lower-cases every character. -/
def jsToLower (s : String) : String :=
  String.mk (s.data.map Char.toLower)

/-- Embedding of JavaScript `String.prototype.toUpperCase` (ASCII fragment):
upper-cases every character. -/
def jsToUpper (s : String) : String :=
  String.mk (s.data.map Char.toUpper)

/-- `TermForm.tsx` lines 87–89:
`word.charAt(0).toUpperCase() + word.slice(1).toLowerCase()`. -/
def capitalizeWord (word : String) : String :=
  match word.data with
  | [] => ""
  | c :: cs => String.mk (c.toUpper :: cs.map Char.toLower)

/-! ## Data model (`HomePage.tsx` lines 12–39) -/
/-- A taxonomy record as used by `HomePage` (`Category` / `Theme`). -/
structure TaxRec where
  id : String
  name : String
  isApproved : Bool
  deriving DecidableEq

/-- A language record (`HomePage.tsx` lines 24–29): adds a `code`. -/
structure LangRec where
  id : String
  name : String
  code : String
  isApproved : Bool
  deriving DecidableEq

/-- A glossary term (`HomePage.tsx` lines 31–39). -/
structure Term where
  id : String
  term : String
  definition : String
  grammaticalCategory : TaxRec
  theme : TaxRec
  language : LangRec
  status : String
  deriving DecidableEq

/-! ## Filtering (`HomePage.tsx` lines 101–109) -/
/-- The filter predicate of the `useEffect` at `HomePage.tsx` lines 102–106.
A JavaScript string used as a condition is truthy exactly when non-empty,
hence the `if sel == "" then true else …` shape for the three taxonomy
conjuncts. The search conjunct is the bare `includes` disjunction — it
carries no explicit empty-string guard in the source. -/
def termMatchesFilter (selectedCategory selectedTheme selectedLanguage searchTerm : String)
    (t : Term) : Bool :=
  (if selectedCategory == "" then true else t.grammaticalCategory.name == selectedCategory) &&
  (if selectedTheme == "" then true else t.theme.name == selectedTheme) &&
  (if selectedLanguage == "" then true else t.language.name == selectedLanguage) &&
  (charsIncludes (jsToLower t.term).data (jsToLower searchTerm).data ||
   charsIncludes (jsToLower t.definition).data (jsToLower searchTerm).data)

/-- The filtered list recomputed by the `useEffect`:
`terms.filter (term => …)`. -/
def filteredList (selectedCategory selectedTheme selectedLanguage searchTerm : String)
    (terms : List Term) : List Term :=
  terms.filter (termMatchesFilter selectedCategory selectedTheme selectedLanguage searchTerm)

/-- The filter pass condition as worded by the specification (§4.1): each
taxonomy conjunct is "no value selected OR the term's name equals the
selection", and the search conjunct is "the search string is empty OR a
case-insensitive substring of the term text or of the definition". -/
def specTermPasses (selectedCategory selectedTheme selectedLanguage searchTerm : String)
    (t : Term) : Bool :=
  (selectedCategory == "" || t.grammaticalCategory.name == selectedCategory) &&
  (selectedTheme == "" || t.theme.name == selectedTheme) &&
  (selectedLanguage == "" || t.language.name == selectedLanguage) &&
  (searchTerm == "" ||
   charsIncludes (jsToLower t.term).data (jsToLower searchTerm).data ||
   charsIncludes (jsToLower t.definition).data (jsToLower searchTerm).data)

/-! ## HomePage state and events -/
/-- The client-local filter/pagination state of `HomePage`
(`HomePage.tsx` lines 42–52). The fetched `terms` list is carried along;
`filteredTerms` is derived below (the `useEffect` at lines 101–109
recomputes it from exactly these inputs). -/
structure HomeState where
  terms : List Term
  selectedCategory : String
  selectedTheme : String
  selectedLanguage : String
  searchTerm : String
  currentPage : Nat
  deriving DecidableEq

/-- Initial state: all selections empty, `currentPage = 1`
(`useState` initializers, `HomePage.tsx` lines 45–51). -/
def homeInit (terms : List Term) : HomeState :=
  { terms := terms, selectedCategory := "", selectedTheme := "",
    selectedLanguage := "", searchTerm := "", currentPage := 1 }

/-- The user interactions that mutate `HomePage`'s filter/page state. -/
inductive HomeEvent where
  | selectCategory (option : String)
  | selectTheme (option : String)
  | selectLanguage (option : String)
  | searchInput (value : String)
  | paginate (pageNumber : Nat)
  deriving DecidableEq

/-- One event step. The three taxonomy handlers implement the toggle at
`HomePage.tsx` lines 135/141/147:
`setSelectedCategory(option === selectedCategory ? '' : option)`;
`searchInput` is `handleSearchChange` (line 112) and `paginate` is the
callback at line 119. -/
def applyHomeEvent (s : HomeState) (e : HomeEvent) : HomeState :=
  match e with
  | .selectCategory o =>
      { s with selectedCategory := if o == s.selectedCategory then "" else o }
  | .selectTheme o =>
      { s with selectedTheme := if o == s.selectedTheme then "" else o }
  | .selectLanguage o =>
      { s with selectedLanguage := if o == s.selectedLanguage then "" else o }
  | .searchInput v => { s with searchTerm := v }
  | .paginate n => { s with currentPage := n }

/-- The derived filtered list of a state. -/
def HomeState.filteredTerms (s : HomeState) : List Term :=
  filteredList s.selectedCategory s.selectedTheme s.selectedLanguage s.searchTerm s.terms

/-! ## Pagination (`HomePage.tsx` lines 52, 115–117) -/
/-- `const termsPerPage: number = 10;` -/
def termsPerPage : Nat := 10

/-- JavaScript `Array.prototype.slice(begin, end)` for non-negative
indices: elements at positions `[b, e)`. -/
def jsSlice (l : List Term) (b e : Nat) : List Term :=
  (l.drop b).take (e - b)

/-- `HomePage.tsx` lines 115–117:
`indexOfLastTerm = currentPage * termsPerPage`,
`indexOfFirstTerm = indexOfLastTerm - termsPerPage`,
`currentTerms = filteredTerms.slice(indexOfFirstTerm, indexOfLastTerm)`. -/
def currentTermsOf (filtered : List Term) (currentPage : Nat) : List Term :=
  jsSlice filtered (currentPage * termsPerPage - termsPerPage) (currentPage * termsPerPage)

/-- Demo data used by the concrete scenarios. -/
def chatTerm : Term :=
  { id := "t1", term := "Chat", definition := "Animal domestique",
    grammaticalCategory := { id := "c1", name := "Noun", isApproved := true },
    theme := { id := "th1", name := "Animaux", isApproved := true },
    language := { id := "l1", name := "French", code := "fr", isApproved := true },
    status := "approved" }

/-- A second demo term whose text and definition do not contain "chat". -/
def rapideTerm : Term :=
  { id := "t2", term := "Rapide", definition := "Vite",
    grammaticalCategory := { id := "c2", name := "Adjective", isApproved := true },
    theme := { id := "th2", name := "Divers", isApproved := true },
    language := { id := "l1", name := "French", code := "fr", isApproved := true },
    status := "approved" }

/-- Eleven terms: ten matching "chat" and one not. -/
def demoTerms : List Term := List.replicate 10 chatTerm ++ [rapideTerm]

/-- State reached from `homeInit demoTerms` by going to page 2 and then
typing the search "chat" (which narrows the filtered list to 10 items). -/
def demoNarrowed : HomeState :=
  applyHomeEvent (applyHomeEvent (homeInit demoTerms) (HomeEvent.paginate 2))
    (HomeEvent.searchInput "chat")

/-! ## TermForm (`TermForm.tsx`) -/
/-- The optional `initialData` prop (`TermForm.tsx` lines 10–17). -/
structure InitialData where
  term : String
  translation : String
  definition : String
  grammaticalCategory : String
  theme : String
  language : String
  deriving DecidableEq

/-- `initialData?.field || ''`: the field when the prop is present (an
empty field is falsy and also yields `""`), else `""`. -/
def initField (i : Option InitialData) (f : InitialData → String) : String :=
  match i with
  | none => ""
  | some d => f d

/-- The nine string-valued `useState` slots of `TermForm`
(`TermForm.tsx` lines 21–29). -/
structure FormState where
  term : String
  definition : String
  translation : String
  grammaticalCategory : String
  theme : String
  language : String
  newCategory : String
  newTheme : String
  newLanguage : String
  deriving DecidableEq

/-- Initial form state (`TermForm.tsx` lines 21–29): the six main fields
from `initialData?.x || ''`, the three free-text fields empty. -/
def formInit (i : Option InitialData) : FormState :=
  { term := initField i InitialData.term,
    definition := initField i InitialData.definition,
    translation := initField i InitialData.translation,
    grammaticalCategory := initField i InitialData.grammaticalCategory,
    theme := initField i InitialData.theme,
    language := initField i InitialData.language,
    newCategory := "", newTheme := "", newLanguage := "" }

/-- The change events a user can fire on the form's inputs. -/
inductive FormEvent where
  | termInput (value : String)
  | translationInput (value : String)
  | definitionInput (value : String)
  | categorySelect (value : String)
  | themeSelect (value : String)
  | languageSelect (value : String)
  | newCategoryInput (value : String)
  | newThemeInput (value : String)
  | newLanguageInput (value : String)
  deriving DecidableEq

/-- One change event. Text inputs apply `capitalizeWord` in their
`onChange` (`TermForm.tsx` lines 184–188, 199–203, 239–243, 266–270,
294–298) except the definition textarea (lines 213–216) which stores the
raw value. The three dropdown handlers (lines 121–149) clear the matching
free-text state when the new value is not `'Other'`. The three free-text
inputs are rendered only under `x === 'Other'` (lines 234, 261, 288), so
their change events can only occur — and are only applied — in states
where the matching dropdown is on `'Other'`. -/
def applyFormEvent (s : FormState) (e : FormEvent) : FormState :=
  match e with
  | .termInput v => { s with term := capitalizeWord v }
  | .translationInput v => { s with translation := capitalizeWord v }
  | .definitionInput v => { s with definition := v }
  | .categorySelect v =>
      if v == "Other" then { s with grammaticalCategory := v }
      else { s with grammaticalCategory := v, newCategory := "" }
  | .themeSelect v =>
      if v == "Other" then { s with theme := v }
      else { s with theme := v, newTheme := "" }
  | .languageSelect v =>
      if v == "Other" then { s with language := v }
      else { s with language := v, newLanguage := "" }
  | .newCategoryInput v =>
      if s.grammaticalCategory == "Other" then { s with newCategory := capitalizeWord v } else s
  | .newThemeInput v =>
      if s.theme == "Other" then { s with newTheme := capitalizeWord v } else s
  | .newLanguageInput v =>
      if s.language == "Other" then { s with newLanguage := capitalizeWord v } else s

/-- The form state after a sequence of change events from the initial
state. -/
def runForm (i : Option InitialData) (evs : List FormEvent) : FormState :=
  evs.foldl applyFormEvent (formInit i)

/-- The payload `termData` built by `handleSubmit`
(`TermForm.tsx` lines 96–103). -/
structure TermData where
  term : String
  translation : String
  definition : String
  grammaticalCategory : String
  theme : String
  language : String
  deriving DecidableEq

/-- `handleSubmit`'s payload construction: each taxonomy field is the
free-text state when the dropdown is on `'Other'`, else the dropdown
value (`TermForm.tsx` lines 100–102). -/
def buildTermData (s : FormState) : TermData :=
  { term := s.term, translation := s.translation, definition := s.definition,
    grammaticalCategory :=
      if s.grammaticalCategory == "Other" then s.newCategory else s.grammaticalCategory,
    theme := if s.theme == "Other" then s.newTheme else s.theme,
    language := if s.language == "Other" then s.newLanguage else s.language }

/-! ## TermForm data fetch (`TermForm.tsx` lines 47–85) -/
/-- A fetched `{ _id, name }` record (categories / themes). -/
structure NameRec where
  id : String
  name : String
  deriving DecidableEq

/-- A fetched `{ _id, name, code }` language record. -/
structure LangOpt where
  id : String
  name : String
  code : String
  deriving DecidableEq

/-- The value returned by the languages fetch, which the caller guards
with `Array.isArray` (`TermForm.tsx` line 55): an array, a plain
non-array object (whose `.length` is `undefined`, so `length > 0` is
false), or a nullish value (whose `.length` access throws a `TypeError`,
landing in the `catch`). -/
inductive LangFetch where
  | arr (items : List LangOpt)
  | obj
  | nullish
  deriving DecidableEq

/-- `Array.isArray`. -/
def jsIsArray : LangFetch → Bool
  | .arr _ => true
  | _ => false

/-- The synthetic `'Other'` option appended to categories and themes
(`TermForm.tsx` lines 53–54). -/
def otherName : NameRec := { id := "other", name := "Other" }

/-- The synthetic `'Other'` language option (`TermForm.tsx` line 55). -/
def otherLangOpt : LangOpt := { id := "other", name := "Other", code := "" }

/-- The component state `fetchData` and the default-selection effect
operate on: the form fields plus the three option lists and the error
message. -/
structure TFState where
  form : FormState
  categories : List NameRec
  themeOptions : List NameRec
  languageOptions : List LangOpt
  error : Option String
  deriving DecidableEq

/-- Mount-time state: form from `initialData`, option lists empty, no
error. -/
def tfInit (i : Option InitialData) : TFState :=
  { form := formInit i, categories := [], themeOptions := [], languageOptions := [],
    error := none }

/-- `fetchData` (`TermForm.tsx` lines 48–70), recorded field-wise — each
`set…` call in the body touches a distinct state field, so the sequential
updates are equivalent to this simultaneous record update:
* option lists from lines 53–55 (`Array.isArray` guard for languages);
* `grammaticalCategory` / `theme` set to the first fetched name when the
  fetched list is non-empty and no initial value was supplied
  (lines 57–62, `!initialData?.x` is truthy exactly when the field is
  absent or empty);
* `language` likewise (lines 63–65), except that reading `.length` of a
  nullish response throws before that conditional, so the `catch`
  (lines 66–69) sets the error message and the language selection is
  left as it was — the earlier setters have already run. -/
def runFetchData (i : Option InitialData) (categoriesData themesData : List NameRec)
    (languagesData : LangFetch) (s : TFState) : TFState :=
  { s with
    categories := categoriesData ++ [otherName],
    themeOptions := themesData ++ [otherName],
    languageOptions := match languagesData with
      | .arr items => items ++ [otherLangOpt]
      | _ => [],
    form := { s.form with
      grammaticalCategory := match categoriesData with
        | [] => s.form.grammaticalCategory
        | c :: _ =>
            if initField i InitialData.grammaticalCategory == "" then c.name
            else s.form.grammaticalCategory,
      theme := match themesData with
        | [] => s.form.theme
        | t :: _ =>
            if initField i InitialData.theme == "" then t.name else s.form.theme,
      language := match languagesData with
        | .arr [] => s.form.language
        | .arr (l :: _) =>
            if initField i InitialData.language == "" then l.name else s.form.language
        | _ => s.form.language },
    error := match languagesData with
      | .nullish => some "Error loading data"
      | _ => s.error }

/-- The default-selection `useEffect` (`TermForm.tsx` lines 75–85): for
each dropdown, when its option list is non-empty and no initial value was
supplied, select the first option of the list. -/
def defaultSelectionEffect (i : Option InitialData) (s : TFState) : TFState :=
  { s with form := { s.form with
      grammaticalCategory := match s.categories with
        | [] => s.form.grammaticalCategory
        | c :: _ =>
            if initField i InitialData.grammaticalCategory == "" then c.name
            else s.form.grammaticalCategory,
      theme := match s.themeOptions with
        | [] => s.form.theme
        | t :: _ =>
            if initField i InitialData.theme == "" then t.name else s.form.theme,
      language := match s.languageOptions with
        | [] => s.form.language
        | l :: _ =>
            if initField i InitialData.language == "" then l.name else s.form.language } }

/-- State after the mount-time fetch and the default-selection effect it
triggers. -/
def afterLoad (i : Option InitialData) (categoriesData themesData : List NameRec)
    (languagesData : LangFetch) : TFState :=
  defaultSelectionEffect i (runFetchData i categoriesData themesData languagesData (tfInit i))

/-- Demo records for the concrete scenarios. -/
def nounRec : NameRec := { id := "c1", name := "Noun" }

def themeRec : NameRec := { id := "th1", name := "Animaux" }

def frenchOpt : LangOpt := { id := "l1", name := "French", code := "fr" }

def englishOpt : LangOpt := { id := "l2", name := "English", code := "en" }

/-- Edit-mode initial data whose language is "English". -/
def demoInitial : InitialData :=
  { term := "Chat", translation := "Cat", definition := "Animal domestique",
    grammaticalCategory := "Noun", theme := "Animaux", language := "English" }

/-- A form state whose three dropdowns are all on `'Other'`. -/
def stAllOther : FormState :=
  runForm none [FormEvent.categorySelect "Other", FormEvent.themeSelect "Other",
    FormEvent.languageSelect "Other"]

/-- The stale-free-text invariant of `TermForm`: whenever a dropdown is
not on `'Other'`, its free-text companion state is empty. -/
def freshTextInv (s : FormState) : Prop :=
  (s.grammaticalCategory ≠ "Other" → s.newCategory = "") ∧
  (s.theme ≠ "Other" → s.newTheme = "") ∧
  (s.language ≠ "Other" → s.newLanguage = "")

/-! ## Theorems -/

/-- Searching for the empty pattern always succeeds (`"".includes` analogue:
`hay.includes("")` is `true` in JavaScript). -/
theorem charsIncludes_nil (hay : List Char) : charsIncludes hay [] = true := by
  cases hay <;> simp [charsIncludes, List.isEmpty, listStartsWith]

theorem termMatchesFilter_eq_specTermPasses
    (sc st sl q : String) (t : Term) :
    termMatchesFilter sc st sl q t = specTermPasses sc st sl q t := by
  unfold termMatchesFilter specTermPasses
  by_cases hq : q = ""
  · subst hq
    have h1 : (jsToLower "").data = [] := rfl
    rw [h1, charsIncludes_nil, charsIncludes_nil]
    cases hc : sc == "" <;> cases ht : st == "" <;> cases hl : sl == "" <;> simp [hc, ht, hl]
  · have hq' : (q == "") = false := by
      simp [hq]
    rw [hq']
    cases hc : sc == "" <;> cases ht : st == "" <;> cases hl : sl == "" <;>
      simp [hc, ht, hl, Bool.or_assoc]

/-- With every filter empty the predicate accepts every term, so the
filtered list is the whole source list. -/
theorem filteredList_no_filters (terms : List Term) :
    filteredList "" "" "" "" terms = terms := by
  unfold filteredList
  have hp : ∀ t ∈ terms, termMatchesFilter "" "" "" "" t = (fun _ => true) t := by
    intro t _
    unfold termMatchesFilter
    have h1 : (jsToLower "").data = [] := rfl
    rw [h1, charsIncludes_nil]
    simp
  rw [List.filter_congr hp, List.filter_true]

/-- C1: for every list of terms and every filter state, the filtered list
computed by `HomePage` equals exactly the subset of the source terms
satisfying the specification's four-condition conjunction (no category
selected OR equal name, same for theme and language, and search empty OR
case-insensitive substring of term text or definition). -/
theorem C1_filtered_eq_spec_subset (sc st sl q : String) (terms : List Term) :
    filteredList sc st sl q terms = terms.filter (specTermPasses sc st sl q) :=
  List.filter_congr fun t _ => termMatchesFilter_eq_specTermPasses sc st sl q t

/-- C2: for every filtered list and page number `k ≥ 1`, the displayed page
is the slice `[10*(k-1), 10*k)` of the filtered list — element `i` of the
page is element `10*(k-1)+i` of the list when `i < 10` and absent
otherwise — and a page beyond the last (`10*(k-1) ≥ N`) is empty rather
than an error. -/
theorem C2_pagination_slice (l : List Term) (k : Nat) (hk : 1 ≤ k) :
    (∀ i : Nat, (currentTermsOf l k)[i]? =
      if i < termsPerPage then l[termsPerPage * (k - 1) + i]? else none) ∧
    (l.length ≤ termsPerPage * (k - 1) → currentTermsOf l k = []) := by
  have hb : k * termsPerPage - termsPerPage = termsPerPage * (k - 1) := by
    simp only [termsPerPage]
    omega
  have he : k * termsPerPage - (k * termsPerPage - termsPerPage) = termsPerPage := by
    simp only [termsPerPage]
    omega
  constructor
  · intro i
    unfold currentTermsOf jsSlice
    rw [he, hb]
    by_cases hi : i < termsPerPage
    · rw [if_pos hi, List.getElem?_take_of_lt hi, List.getElem?_drop]
    · rw [if_neg hi]
      apply List.getElem?_eq_none
      exact Nat.le_trans (List.length_take_le _ _) (Nat.not_lt.mp hi)
  · intro hle
    unfold currentTermsOf jsSlice
    rw [hb, List.drop_eq_nil_of_le hle, List.take_nil]

/-- C2 witness: with 3 terms and page 2, the slice start `10*(2-1) = 10` is
past the end, so the displayed page is empty. -/
theorem C2_pagination_slice_witness :
    (1 ≤ 2) ∧ currentTermsOf (List.replicate 3 chatTerm) 2 = [] :=
  ⟨by decide,
   (C2_pagination_slice (List.replicate 3 chatTerm) 2 (by decide)).2 (by decide)⟩

/-- C4: for each filter dimension, selecting the currently selected option
resets that dimension to `""` while selecting a different option replaces
the selection; selecting "Noun" twice from a state not already on "Noun"
ends with `selectedCategory = ""`; and a state with every filter empty
shows all terms. -/
theorem C4_filter_toggle (s : HomeState) (o : String) :
    (s.selectedCategory = o → (applyHomeEvent s (.selectCategory o)).selectedCategory = "") ∧
    (s.selectedCategory ≠ o → (applyHomeEvent s (.selectCategory o)).selectedCategory = o) ∧
    (s.selectedTheme = o → (applyHomeEvent s (.selectTheme o)).selectedTheme = "") ∧
    (s.selectedTheme ≠ o → (applyHomeEvent s (.selectTheme o)).selectedTheme = o) ∧
    (s.selectedLanguage = o → (applyHomeEvent s (.selectLanguage o)).selectedLanguage = "") ∧
    (s.selectedLanguage ≠ o → (applyHomeEvent s (.selectLanguage o)).selectedLanguage = o) ∧
    (s.selectedCategory ≠ "Noun" →
      (applyHomeEvent (applyHomeEvent s (.selectCategory "Noun"))
        (.selectCategory "Noun")).selectedCategory = "") ∧
    (s.selectedCategory = "" → s.selectedTheme = "" → s.selectedLanguage = "" →
      s.searchTerm = "" → s.filteredTerms = s.terms) := by
  refine ⟨?_, ?_, ?_, ?_, ?_, ?_, ?_, ?_⟩
  · intro h
    simp [applyHomeEvent, h]
  · intro h
    have : (o == s.selectedCategory) = false := by
      simp [Ne.symm h]
    simp [applyHomeEvent, this]
  · intro h
    simp [applyHomeEvent, h]
  · intro h
    have : (o == s.selectedTheme) = false := by
      simp [Ne.symm h]
    simp [applyHomeEvent, this]
  · intro h
    simp [applyHomeEvent, h]
  · intro h
    have : (o == s.selectedLanguage) = false := by
      simp [Ne.symm h]
    simp [applyHomeEvent, this]
  · intro h
    have h1 : ("Noun" == s.selectedCategory) = false := by
      simp [Ne.symm h]
    simp [applyHomeEvent, h1]
  · intro h1 h2 h3 h4
    unfold HomeState.filteredTerms
    rw [h1, h2, h3, h4, filteredList_no_filters]

/-- C4 witness: from the initial state, selecting "Noun" twice clears the
category selection, and the unfiltered initial state shows all terms. -/
theorem C4_filter_toggle_witness :
    (applyHomeEvent (applyHomeEvent (homeInit [chatTerm]) (.selectCategory "Noun"))
      (.selectCategory "Noun")).selectedCategory = "" ∧
    (homeInit [chatTerm]).filteredTerms = [chatTerm] :=
  ⟨(C4_filter_toggle (homeInit [chatTerm]) "Noun").2.2.2.2.2.2.1 (by decide),
   (C4_filter_toggle (homeInit [chatTerm]) "Noun").2.2.2.2.2.2.2 rfl rfl rfl rfl⟩

/-- C8: the page index starts at 1, every filter event (category, theme,
language selection or search text) leaves `currentPage` unchanged, only
`paginate` modifies it; consequently, after narrowing the filters from
page 2 the displayed page can be empty (`demoNarrowed`). -/
theorem C8_filters_preserve_page (s : HomeState) (o v : String) (n : Nat) (terms : List Term) :
    (homeInit terms).currentPage = 1 ∧
    (applyHomeEvent s (.selectCategory o)).currentPage = s.currentPage ∧
    (applyHomeEvent s (.selectTheme o)).currentPage = s.currentPage ∧
    (applyHomeEvent s (.selectLanguage o)).currentPage = s.currentPage ∧
    (applyHomeEvent s (.searchInput v)).currentPage = s.currentPage ∧
    (applyHomeEvent s (.paginate n)).currentPage = n ∧
    demoNarrowed.currentPage = 2 ∧
    currentTermsOf demoNarrowed.filteredTerms demoNarrowed.currentPage = [] ∧
    currentTermsOf (homeInit demoTerms).filteredTerms 2 = [rapideTerm] :=
  ⟨rfl, rfl, rfl, rfl, rfl, rfl, by decide, by decide, by decide⟩

/-! ## Character-level lemmas for `capitalizeWord` -/
theorem toNat_ofNat_valid {n : Nat} (h : n.isValidChar) : (Char.ofNat n).toNat = n := by
  simp [Char.ofNat, dif_pos h, Char.ofNatAux, Char.toNat, UInt32.toNat]

theorem toUpper_idem (c : Char) : c.toUpper.toUpper = c.toUpper := by
  unfold Char.toUpper
  by_cases h : c.toNat ≥ 97 ∧ c.toNat ≤ 122
  · rw [if_pos h]
    have hv : (c.toNat - 32).isValidChar := by
      left
      omega
    rw [toNat_ofNat_valid hv, if_neg (by omega)]
  · rw [if_neg h, if_neg h]

theorem toLower_idem (c : Char) : c.toLower.toLower = c.toLower := by
  unfold Char.toLower
  by_cases h : c.toNat ≥ 65 ∧ c.toNat ≤ 90
  · rw [if_pos h]
    have hv : (c.toNat + 32).isValidChar := by
      left
      omega
    rw [toNat_ofNat_valid hv, if_neg (by omega)]
  · rw [if_neg h, if_neg h]

theorem map_toLower_toLower (l : List Char) :
    l.map (Char.toLower ∘ Char.toLower) = l.map Char.toLower := by
  induction l with
  | nil => rfl
  | cons a as ih => simp [Function.comp, toLower_idem, ih]

/-! ## Claim theorems for TermForm -/
/-- C10: `capitalizeWord` is idempotent — re-applying the per-keystroke
transformation to text it already produced leaves the text unchanged. -/
theorem C10_capitalizeWord_idempotent (w : String) :
    capitalizeWord (capitalizeWord w) = capitalizeWord w := by
  obtain ⟨data⟩ := w
  cases data with
  | nil => rfl
  | cons c cs =>
    have h1 : capitalizeWord (String.mk (c :: cs)) =
        String.mk (c.toUpper :: cs.map Char.toLower) := rfl
    have h2 : capitalizeWord (String.mk (c.toUpper :: cs.map Char.toLower)) =
        String.mk (c.toUpper.toUpper :: (cs.map Char.toLower).map Char.toLower) := rfl
    rw [h1, h2, toUpper_idem, List.map_map, map_toLower_toLower]

/-- C5: every change event stores `capitalizeWord` of the entered text for
the term, translation, new-category, new-theme and new-language inputs
(the last three can only fire with their dropdown on `'Other'`), while
the definition textarea stores the entered text unchanged. -/
theorem C5_input_capitalization (s : FormState) (v : String) :
    (applyFormEvent s (.termInput v)).term = capitalizeWord v ∧
    (applyFormEvent s (.translationInput v)).translation = capitalizeWord v ∧
    (applyFormEvent s (.definitionInput v)).definition = v ∧
    (s.grammaticalCategory = "Other" →
      (applyFormEvent s (.newCategoryInput v)).newCategory = capitalizeWord v) ∧
    (s.theme = "Other" → (applyFormEvent s (.newThemeInput v)).newTheme = capitalizeWord v) ∧
    (s.language = "Other" →
      (applyFormEvent s (.newLanguageInput v)).newLanguage = capitalizeWord v) := by
  refine ⟨rfl, rfl, rfl, ?_, ?_, ?_⟩
  · intro h
    simp [applyFormEvent, h]
  · intro h
    simp [applyFormEvent, h]
  · intro h
    simp [applyFormEvent, h]

/-- C5 witness: "cHAT" is stored as "Chat", a definition is stored
verbatim, and with the category dropdown on `'Other'` the new-category
input stores "verb" as "Verb". -/
theorem C5_input_capitalization_witness :
    (applyFormEvent (formInit none) (.termInput "cHAT")).term = "Chat" ∧
    (applyFormEvent (formInit none) (.definitionInput "animal")).definition = "animal" ∧
    stAllOther.grammaticalCategory = "Other" ∧
    (applyFormEvent stAllOther (.newCategoryInput "verb")).newCategory = "Verb" :=
  ⟨(C5_input_capitalization (formInit none) "cHAT").1.trans (by decide),
   (C5_input_capitalization (formInit none) "animal").2.2.1,
   by decide,
   ((C5_input_capitalization stAllOther "verb").2.2.2.1 (by decide)).trans (by decide)⟩

/-- C3: the payload built by `handleSubmit` resolves each taxonomy field
to the free-text state when the dropdown is on `'Other'` and to the
dropdown value otherwise; entering "verb" in the new-category input while
`'Other'` is selected yields a submitted category of "Verb"; and the
§8 scenario (no initial data, categories `[{name:"Noun"}]`, select
`'Other'`, type "verb") submits category "Verb". -/
theorem C3_submit_payload_resolution (s : FormState) (w : String) :
    (s.grammaticalCategory = "Other" →
      (buildTermData s).grammaticalCategory = s.newCategory) ∧
    (s.grammaticalCategory ≠ "Other" →
      (buildTermData s).grammaticalCategory = s.grammaticalCategory) ∧
    (s.theme = "Other" → (buildTermData s).theme = s.newTheme) ∧
    (s.theme ≠ "Other" → (buildTermData s).theme = s.theme) ∧
    (s.language = "Other" → (buildTermData s).language = s.newLanguage) ∧
    (s.language ≠ "Other" → (buildTermData s).language = s.language) ∧
    (s.grammaticalCategory = "Other" →
      (buildTermData (applyFormEvent s (.newCategoryInput w))).grammaticalCategory =
        capitalizeWord w) ∧
    (buildTermData (List.foldl applyFormEvent
        (afterLoad none [nounRec] [themeRec] (LangFetch.arr [frenchOpt])).form
        [FormEvent.categorySelect "Other",
         FormEvent.newCategoryInput "verb"])).grammaticalCategory = "Verb" := by
  refine ⟨?_, ?_, ?_, ?_, ?_, ?_, ?_, by decide⟩
  · intro h
    simp [buildTermData, h]
  · intro h
    simp [buildTermData, h]
  · intro h
    simp [buildTermData, h]
  · intro h
    simp [buildTermData, h]
  · intro h
    simp [buildTermData, h]
  · intro h
    simp [buildTermData, h]
  · intro h
    simp [buildTermData, applyFormEvent, h]

/-- C3 witness: selecting `'Other'` and typing "verb" submits "Verb". -/
theorem C3_submit_payload_resolution_witness :
    (buildTermData (applyFormEvent (runForm none [FormEvent.categorySelect "Other"])
      (FormEvent.newCategoryInput "verb"))).grammaticalCategory = "Verb" :=
  ((C3_submit_payload_resolution (runForm none [FormEvent.categorySelect "Other"])
      "verb").2.2.2.2.2.2.1 (by decide)).trans (by decide)

/-! ## The stale-free-text invariant (C9) -/
theorem freshTextInv_init (i : Option InitialData) : freshTextInv (formInit i) :=
  ⟨fun _ => rfl, fun _ => rfl, fun _ => rfl⟩

theorem freshTextInv_step (s : FormState) (e : FormEvent) (h : freshTextInv s) :
    freshTextInv (applyFormEvent s e) := by
  obtain ⟨h1, h2, h3⟩ := h
  cases e with
  | termInput v => exact ⟨h1, h2, h3⟩
  | translationInput v => exact ⟨h1, h2, h3⟩
  | definitionInput v => exact ⟨h1, h2, h3⟩
  | categorySelect v =>
    by_cases hv : v = "Other"
    · simp only [applyFormEvent, hv, beq_self_eq_true, if_true]
      exact ⟨fun hne => absurd rfl hne, h2, h3⟩
    · have hv' : (v == "Other") = false := by
        simp [hv]
      simp only [applyFormEvent, hv', Bool.false_eq_true, if_false]
      exact ⟨fun _ => rfl, h2, h3⟩
  | themeSelect v =>
    by_cases hv : v = "Other"
    · simp only [applyFormEvent, hv, beq_self_eq_true, if_true]
      exact ⟨h1, fun hne => absurd rfl hne, h3⟩
    · have hv' : (v == "Other") = false := by
        simp [hv]
      simp only [applyFormEvent, hv', Bool.false_eq_true, if_false]
      exact ⟨h1, fun _ => rfl, h3⟩
  | languageSelect v =>
    by_cases hv : v = "Other"
    · simp only [applyFormEvent, hv, beq_self_eq_true, if_true]
      exact ⟨h1, h2, fun hne => absurd rfl hne⟩
    · have hv' : (v == "Other") = false := by
        simp [hv]
      simp only [applyFormEvent, hv', Bool.false_eq_true, if_false]
      exact ⟨h1, h2, fun _ => rfl⟩
  | newCategoryInput v =>
    by_cases hv : s.grammaticalCategory = "Other"
    · have hv' : (s.grammaticalCategory == "Other") = true := by
        simp [hv]
      simp only [applyFormEvent, hv', if_true]
      exact ⟨fun hne => absurd hv hne, h2, h3⟩
    · have hv' : (s.grammaticalCategory == "Other") = false := by
        simp [hv]
      simp only [applyFormEvent, hv', Bool.false_eq_true, if_false]
      exact ⟨h1, h2, h3⟩
  | newThemeInput v =>
    by_cases hv : s.theme = "Other"
    · have hv' : (s.theme == "Other") = true := by
        simp [hv]
      simp only [applyFormEvent, hv', if_true]
      exact ⟨h1, fun hne => absurd hv hne, h3⟩
    · have hv' : (s.theme == "Other") = false := by
        simp [hv]
      simp only [applyFormEvent, hv', Bool.false_eq_true, if_false]
      exact ⟨h1, h2, h3⟩
  | newLanguageInput v =>
    by_cases hv : s.language = "Other"
    · have hv' : (s.language == "Other") = true := by
        simp [hv]
      simp only [applyFormEvent, hv', if_true]
      exact ⟨h1, h2, fun hne => absurd hv hne⟩
    · have hv' : (s.language == "Other") = false := by
        simp [hv]
      simp only [applyFormEvent, hv', Bool.false_eq_true, if_false]
      exact ⟨h1, h2, h3⟩

theorem foldl_freshTextInv (evs : List FormEvent) (s : FormState) (h : freshTextInv s) :
    freshTextInv (evs.foldl applyFormEvent s) := by
  induction evs generalizing s with
  | nil => exact h
  | cons e rest ih => exact ih _ (freshTextInv_step s e h)

/-- C9: after every sequence of dropdown-change and free-text-change
events from the initial state, a dropdown not on `'Other'` has an empty
free-text companion, so a submitted payload never carries stale free
text from a previously selected `'Other'`. -/
theorem C9_no_stale_free_text (i : Option InitialData) (evs : List FormEvent) :
    ((runForm i evs).grammaticalCategory ≠ "Other" → (runForm i evs).newCategory = "") ∧
    ((runForm i evs).theme ≠ "Other" → (runForm i evs).newTheme = "") ∧
    ((runForm i evs).language ≠ "Other" → (runForm i evs).newLanguage = "") :=
  foldl_freshTextInv evs (formInit i) (freshTextInv_init i)

/-- C9 witness: typing "stale" under `'Other'` and then selecting "Noun"
leaves the free-text state cleared. -/
theorem C9_no_stale_free_text_witness :
    (runForm none [FormEvent.categorySelect "Other", FormEvent.newCategoryInput "stale",
      FormEvent.categorySelect "Noun"]).newCategory = "" :=
  (C9_no_stale_free_text none [FormEvent.categorySelect "Other",
    FormEvent.newCategoryInput "stale", FormEvent.categorySelect "Noun"]).1 (by decide)

/-! ## Default dropdown selection and defensive language load -/
/-- C6: after the data fetch and the default-selection effect, each
dropdown with a non-empty fetched collection is on the first fetched
item exactly when no initial value was supplied for that field, and on
the initial value otherwise (edit mode keeps the pre-filled value). -/
theorem C6_default_dropdown_selection (i : Option InitialData)
    (c : NameRec) (cs : List NameRec) (t : NameRec) (ts : List NameRec)
    (l : LangOpt) (ls : List LangOpt) :
    (initField i InitialData.grammaticalCategory = "" →
      (afterLoad i (c :: cs) (t :: ts) (.arr (l :: ls))).form.grammaticalCategory = c.name) ∧
    (initField i InitialData.grammaticalCategory ≠ "" →
      (afterLoad i (c :: cs) (t :: ts) (.arr (l :: ls))).form.grammaticalCategory =
        initField i InitialData.grammaticalCategory) ∧
    (initField i InitialData.theme = "" →
      (afterLoad i (c :: cs) (t :: ts) (.arr (l :: ls))).form.theme = t.name) ∧
    (initField i InitialData.theme ≠ "" →
      (afterLoad i (c :: cs) (t :: ts) (.arr (l :: ls))).form.theme =
        initField i InitialData.theme) ∧
    (initField i InitialData.language = "" →
      (afterLoad i (c :: cs) (t :: ts) (.arr (l :: ls))).form.language = l.name) ∧
    (initField i InitialData.language ≠ "" →
      (afterLoad i (c :: cs) (t :: ts) (.arr (l :: ls))).form.language =
        initField i InitialData.language) := by
  refine ⟨?_, ?_, ?_, ?_, ?_, ?_⟩ <;> intro h <;>
    simp [afterLoad, runFetchData, defaultSelectionEffect, tfInit, formInit, h]

/-- C6 witness: with `initialData.language = "English"` the language
dropdown pre-selects "English" rather than the first fetched option
"French"; without initial data the category defaults to "Noun". -/
theorem C6_default_dropdown_selection_witness :
    (afterLoad (some demoInitial) [nounRec] [themeRec]
      (.arr [frenchOpt, englishOpt])).form.language = "English" ∧
    (afterLoad none [nounRec] [themeRec] (.arr [frenchOpt])).form.grammaticalCategory
      = "Noun" :=
  ⟨((C6_default_dropdown_selection (some demoInitial) nounRec [] themeRec [] frenchOpt
      [englishOpt]).2.2.2.2.2 (by decide)).trans (by decide),
   ((C6_default_dropdown_selection none nounRec [] themeRec [] frenchOpt []).1
      (by decide)).trans (by decide)⟩

/-- C7: for every non-array languages response the load either
completes with `languageOptions = []` (plain object: `.length` is
`undefined`, so the guard is false) or takes the `catch` branch setting
the "Error loading data" message (nullish: `.length` throws); either
way no language options are offered and no exception escapes. -/
theorem C7_language_fetch_defensive (i : Option InitialData)
    (categoriesData themesData : List NameRec) (languagesData : LangFetch)
    (h : jsIsArray languagesData = false) :
    (afterLoad i categoriesData themesData languagesData).languageOptions = [] ∧
    (languagesData = .nullish →
      (afterLoad i categoriesData themesData languagesData).error = some "Error loading data") ∧
    (languagesData = .obj →
      (afterLoad i categoriesData themesData languagesData).error = none) := by
  cases languagesData with
  | arr items => simp [jsIsArray] at h
  | obj =>
    refine ⟨?_, ?_, ?_⟩ <;> simp [afterLoad, runFetchData, defaultSelectionEffect, tfInit]
  | nullish =>
    refine ⟨?_, ?_, ?_⟩ <;> simp [afterLoad, runFetchData, defaultSelectionEffect, tfInit]

/-- C7 witness: a plain-object response yields no options and no error
message; a nullish response yields no options and the error message. -/
theorem C7_language_fetch_defensive_witness :
    (afterLoad none [] [] LangFetch.obj).languageOptions = [] ∧
    (afterLoad none [] [] LangFetch.obj).error = none ∧
    (afterLoad none [] [] LangFetch.nullish).languageOptions = [] ∧
    (afterLoad none [] [] LangFetch.nullish).error = some "Error loading data" :=
  ⟨(C7_language_fetch_defensive none [] [] LangFetch.obj (by decide)).1,
   (C7_language_fetch_defensive none [] [] LangFetch.obj (by decide)).2.2 rfl,
   (C7_language_fetch_defensive none [] [] LangFetch.nullish (by decide)).1,
   (C7_language_fetch_defensive none [] [] LangFetch.nullish (by decide)).2.1 rfl⟩
